import Mathlib

/-!
Shallow embedding of the generation-request pipeline of
`micro-app-generator-backend`.

The repository's main file is `src/server.js` (the README instructs
`node server.js`); `src/unnamed/part_000` contains the README followed by an
older variant of the same server, and `src/unnamed/part_002` is another
variant.  The embedding below translates `src/server.js`:

  * the admission gate (`activeRequests` / `maxConcurrentRequests`,
    lines 73-84),
  * `makeOpenAIRequest` (lines 122-199), and
  * the `POST /generate-card` handler (lines 76-120).

External runtime primitives are modelled as inputs:

  * the outcome of the single `fetch` call is a `FetchOutcome` value: a
    timeout/abort, a rejection of `fetch` itself with a node-fetch
    `FetchError` (network failure) carrying its runtime message, a reply
    whose `response.json()` rejects with a `FetchError` carrying its runtime
    message, or a reply with an HTTP status and a decoded body;
  * `JSON.parse` applied to the provider's message content is modelled by
    the content arriving either already `parsed` into a `Json` value or
    `unparseable`; the `SyntaxError` message the JS runtime produces on an
    unparseable string is input-dependent (it reports the offending token
    and a position derived from the content) and is modelled by
    `v8ParseErrMessage` below.

The error values thrown by the code are collected in `JsError`; the
`isRateLimit` / `retryAfter` fields that `server.js` attaches to the generic
`Error` object are modelled as functions of the error value.
-/

namespace MicroAppGen

/-- JSON values, as produced by the JS runtime's `JSON.parse`. -/
inductive Json where
  | null
  | bool (b : Bool)
  | num (n : Int)
  | str (s : String)
  | arr (elems : List Json)
  | obj (fields : List (String × Json))
  deriving Repr

/-- Field lookup in a parsed JSON object (`cardJson.type`); accessing a
property of a non-object yields `undefined`, i.e. `none`. -/
def lookupField : List (String × Json) → String → Option Json
  | [], _ => none
  | (k, v) :: rest, key => if k = key then some v else lookupField rest key

def Json.getField : Json → String → Option Json
  | .obj fields, key => lookupField fields key
  | _, _ => none

/-- JS truthiness of a possibly-`undefined` value (`!x` in the source). -/
def jsTruthy : Option Json → Bool
  | none => false
  | some .null => false
  | some (.bool b) => b
  | some (.num n) => decide (n ≠ 0)
  | some (.str s) => decide (s ≠ "")
  | some (.arr _) => true
  | some (.obj _) => true

/-- JS strict equality of a possibly-`undefined` value with a string literal
(`cardJson.type !== 'AdaptiveCard'` in the source). -/
def typeTagIs (v : Option Json) (tag : String) : Bool :=
  match v with
  | some (.str s) => s = tag
  | _ => false

/-- `l.startsWith p` on character lists. -/
def startsWith : List Char → List Char → Bool
  | _, [] => true
  | [], _ :: _ => false
  | c :: cs, p :: ps => c == p && startsWith cs ps

/-- Helper for `String.prototype.includes`. -/
def charListIncludes : List Char → List Char → Bool
  | [], pat => pat.isEmpty
  | c :: rest, pat => startsWith (c :: rest) pat || charListIncludes rest pat

/-- JS `s.includes(pat)` (used by `error.message.includes('timeout')`). -/
def jsIncludes (s pat : String) : Bool :=
  charListIncludes s.toList pat.toList

/-- Constants declared at the top of `server.js` (lines 21-22); they are
declared but never read by any code path. -/
def MAX_RETRIES : Nat := 3

def RETRY_DELAY : Nat := 2000

/-- `maxConcurrentRequests` (server.js line 74). -/
def maxConcurrentRequests : Nat := 1

/-- The fixed provider-call deadline in milliseconds (server.js line 124). -/
def REQUEST_TIMEOUT_MS : Nat := 30000

/-- Modelled from the runtime: the old-format V8 `SyntaxError` message of
`JSON.parse`, "Unexpected token <c> in JSON at position <n>" (or
"Unexpected end of JSON input" for empty content).  The reported token and
position are derived from the raw content by the runtime's parser; here they
are modelled as the content's first character and position 0, which is exact
for content whose first token is already invalid (the typical failure:
prose-wrapped JSON from the model).  For other content only the reported
character and digits differ; the message is always of this shape, varies
with the raw content, and — being one token character plus fixed words and
digits — can never contain the substring "timeout". -/
def v8ParseErrMessage (raw : String) : String :=
  match raw.toList with
  | [] => "Unexpected end of JSON input"
  | c :: _ =>
    String.mk
      ('U' :: 'n' :: 'e' :: 'x' :: 'p' :: 'e' :: 'c' :: 't' :: 'e' :: 'd' :: ' ' ::
       't' :: 'o' :: 'k' :: 'e' :: 'n' :: ' ' :: c ::
       ' ' :: 'i' :: 'n' :: ' ' :: 'J' :: 'S' :: 'O' :: 'N' :: ' ' :: 'a' :: 't' :: ' ' ::
       'p' :: 'o' :: 's' :: 'i' :: 't' :: 'i' :: 'o' :: 'n' :: ' ' :: '0' :: [])

/-- The errors thrown inside the pipeline of `server.js`.  Each constructor
corresponds to one `throw` site (or, for `fetchError`, to a node-fetch
`FetchError` passing through the catch unchanged, its name being neither
checked nor `AbortError`); `apiRequestFailed` keeps the HTTP status the
code attaches to the error object, `jsonParseFailure` retains the raw
unparseable content, `fetchError` carries the runtime-generated message. -/
inductive JsError where
  | configError
  | apiRequestFailed (status : Nat)
  | invalidResponse
  | jsonParseFailure (raw : String)
  | fetchError (msg : String)
  | invalidCardFormat
  | requestTimedOut
  | descriptionRequired
  deriving Repr, DecidableEq

/-- `error.message` of each thrown error: the literal strings of
`server.js`, the modelled runtime `SyntaxError` message for the
`JSON.parse` failure, and the runtime-generated message of a `FetchError`. -/
def JsError.message : JsError → String
  | .configError => "OpenAI API key is not configured"
  | .apiRequestFailed _ => "OpenAI API request failed"
  | .invalidResponse => "Invalid response from OpenAI"
  | .jsonParseFailure raw => v8ParseErrMessage raw
  | .fetchError msg => msg
  | .invalidCardFormat => "Invalid Adaptive Card format"
  | .requestTimedOut => "Request timed out"
  | .descriptionRequired => "Description is required"

/-- `error.isRateLimit`: `server.js` sets it (lines 169-172) exactly when the
provider reply status is 429. -/
def JsError.isRateLimit : JsError → Bool
  | .apiRequestFailed status => status == 429
  | _ => false

/-- `error.retryAfter`: set to 3600 exactly when the reply status is 429. -/
def JsError.retryAfter : JsError → Option Nat
  | .apiRequestFailed status => if status == 429 then some 3600 else none
  | _ => none

/-- The provider message content after `data.choices[0].message.content` has
been read: either a string `JSON.parse` rejects, or the parsed value. -/
inductive JsContent where
  | unparseable (raw : String)
  | parsed (j : Json)
  deriving Repr

/-- The JSON body of a provider reply.  `content` is
`data.choices?.[0]?.message?.content` (`none` when the optional chain is
`undefined`); `errType`/`errMsg` are `body.error?.type` / `body.error?.message`
(`server.js` never reads them, but variants of the server do). -/
structure ProviderBody where
  content : Option JsContent
  errType : Option String
  errMsg : Option String
  deriving Repr

/-- The outcome of the single `fetch` call and of decoding its body:
the 30000 ms timer fired and `controller.abort()` rejected the call with an
`AbortError`; `fetch` itself rejected with a node-fetch `FetchError`
(network failure) carrying its runtime message; a reply arrived whose
`response.json()` rejects with a `FetchError` carrying its runtime message
(observable only when `response.ok`, since `server.js` reads the body only
then); or a reply arrived whose body decodes to a `ProviderBody`. -/
inductive FetchOutcome where
  | timeout
  | fetchFailure (msg : String)
  | replyDecodeFailure (status : Nat) (msg : String)
  | reply (status : Nat) (body : ProviderBody)
  deriving Repr

/-- The environment of a request: `process.env.OPENAI_API_KEY` and the
behaviour of the external provider on this request. -/
structure Env where
  apiKey : Option String
  fetchOutcome : FetchOutcome

/-- `!process.env.OPENAI_API_KEY` — an env var is falsy when absent or empty. -/
def hasApiKey : Option String → Bool
  | none => false
  | some s => s != ""

/-- `makeOpenAIRequest` (server.js lines 122-199).  Returns the result
(`Except` models throw/return) paired with the number of outbound `fetch`
calls issued.  `description` and `retryCount` are parameters of the source
function; neither influences the control flow (`description` is only
interpolated into the prompt, `retryCount` only logged). -/
def makeOpenAIRequest (env : Env) (description : Option Json) (retryCount : Nat) :
    Except JsError Json × Nat :=
  if hasApiKey env.apiKey = false then
    (.error .configError, 0)
  else
    match env.fetchOutcome with
    | .timeout => (.error .requestTimedOut, 1)
    | .fetchFailure msg => (.error (.fetchError msg), 1)
    | .replyDecodeFailure status msg =>
      if 200 ≤ status ∧ status < 300 then
        (.error (.fetchError msg), 1)
      else
        (.error (.apiRequestFailed status), 1)
    | .reply status body =>
      if 200 ≤ status ∧ status < 300 then
        match body.content with
        | none => (.error .invalidResponse, 1)
        | some (.unparseable raw) => (.error (.jsonParseFailure raw), 1)
        | some (.parsed cardJson) =>
          if jsTruthy (cardJson.getField "type") = false
              ∨ typeTagIs (cardJson.getField "type") "AdaptiveCard" = false then
            (.error .invalidCardFormat, 1)
          else
            (.ok cardJson, 1)
      else
        (.error (.apiRequestFailed status), 1)

/-- A response sent by the handler: `res.json(cardJson)` (HTTP 200 with the
card as the entire body), or an error JSON body
`{error, details, retryAfter?}` with an explicit status. -/
inductive RespSent where
  | okJson (card : Json)
  | errJson (status : Nat) (error : String) (details : String)
      (retryAfter : Option Nat)
  deriving Repr

/-- The `details` field of the response body, when the response is an error
body. -/
def RespSent.detailsField : RespSent → Option String
  | .okJson _ => none
  | .errJson _ _ d _ => some d

/-- The HTTP status of a sent response (`res.json` alone sends 200). -/
def RespSent.statusCode : RespSent → Nat
  | .okJson _ => 200
  | .errJson s _ _ _ => s

/-- The 429 body sent when admission is rejected (server.js lines 78-81). -/
def busyResponse : RespSent :=
  .errJson 429 "Server busy"
    "Too many concurrent requests. Please try again in a few seconds." none

/-- The `catch` block of the `POST /generate-card` handler
(server.js lines 95-115). -/
def catchGenerateCard (e : JsError) : RespSent :=
  if e.isRateLimit then
    .errJson 429 "Rate limit exceeded"
      "The AI service is currently at capacity. Please try again in about an hour."
      (some (e.retryAfter.getD 3600))
  else
    .errJson (if jsIncludes e.message "timeout" then 504 else 500)
      (if jsIncludes e.message "timeout" then
        "Request timed out. Please try again."
      else if e.message = "" then
        "An error occurred while generating the card. Please try again."
      else e.message)
      e.message none

/-- The observable effect of one `POST /generate-card` request:
the response sent, the value of `activeRequests` while the body of the
handler runs (after the increment), its value after the handler finishes
(after the `finally`), and the number of outbound provider calls issued. -/
structure HandlerResult where
  response : RespSent
  activeDuring : Nat
  activeAfter : Nat
  outboundCalls : Nat
  deriving Repr

/-- The `POST /generate-card` handler (server.js lines 76-120), as a function
of the current `activeRequests` counter, the request body's `description`
field (`none` when absent), and the environment. -/
def handleGenerateCard (activeRequests : Nat) (description : Option Json)
    (env : Env) : HandlerResult :=
  if activeRequests ≥ maxConcurrentRequests then
    { response := busyResponse
      activeDuring := activeRequests
      activeAfter := activeRequests
      outboundCalls := 0 }
  else
    let tryResult : Except JsError Json × Nat :=
      if jsTruthy description = false then
        (.error .descriptionRequired, 0)
      else
        makeOpenAIRequest env description 0
    { response :=
        match tryResult.1 with
        | .ok cardJson => .okJson cardJson
        | .error e => catchGenerateCard e
      activeDuring := activeRequests + 1
      activeAfter := activeRequests + 1 - 1
      outboundCalls := tryResult.2 }

/-! ## Helper lemmas -/

/-- A `type` field that strictly equals `"AdaptiveCard"` is that string. -/
theorem typeTag_eq (v : Option Json)
    (h : typeTagIs v "AdaptiveCard" = true) :
    v = some (Json.str "AdaptiveCard") := by
  unfold typeTagIs at h
  split at h
  · next s => simp_all
  · simp at h

/-- The modelled runtime `SyntaxError` message can never contain the
substring "timeout": it is one unknown token character surrounded by fixed
words and digits. -/
theorem v8ParseErrMessage_no_timeout (raw : String) :
    jsIncludes (v8ParseErrMessage raw) "timeout" = false := by
  unfold jsIncludes v8ParseErrMessage
  split
  · decide
  · rename_i x c tail heq
    show charListIncludes
      ('U' :: 'n' :: 'e' :: 'x' :: 'p' :: 'e' :: 'c' :: 't' :: 'e' :: 'd' :: ' ' ::
       't' :: 'o' :: 'k' :: 'e' :: 'n' :: ' ' :: c ::
       ' ' :: 'i' :: 'n' :: ' ' :: 'J' :: 'S' :: 'O' :: 'N' :: ' ' :: 'a' :: 't' :: ' ' ::
       'p' :: 'o' :: 's' :: 'i' :: 't' :: 'i' :: 'o' :: 'n' :: ' ' :: '0' :: [])
      ('t' :: 'i' :: 'm' :: 'e' :: 'o' :: 'u' :: 't' :: []) = false
    simp [charListIncludes, startsWith]

/-- The modelled runtime `SyntaxError` message is never empty. -/
theorem v8ParseErrMessage_ne_empty (raw : String) :
    ¬ v8ParseErrMessage raw = "" := by
  unfold v8ParseErrMessage
  split
  · decide
  · intro h
    have h2 := congrArg String.toList h
    simp [String.toList] at h2

/-- `makeOpenAIRequest` on the success path returns the parsed card and
issues exactly one outbound call. -/
theorem makeOpenAIRequest_success (key : String) (status : Nat)
    (body : ProviderBody) (card : Json) (description : Option Json)
    (retryCount : Nat)
    (hkey : key ≠ "") (hst : 200 ≤ status ∧ status < 300)
    (hcontent : body.content = some (.parsed card))
    (htag : typeTagIs (card.getField "type") "AdaptiveCard" = true) :
    makeOpenAIRequest ⟨some key, .reply status body⟩ description retryCount
      = (.ok card, 1) := by
  have hveq := typeTag_eq _ htag
  unfold makeOpenAIRequest
  simp [hasApiKey, hkey, hst, hcontent, hveq, jsTruthy, typeTagIs]

/-- A non-rate-limit error whose message does not contain "timeout" and is
non-empty is mapped by the catch block to HTTP 500 with its message as both
`error` and `details`. -/
theorem catch_not_rate_limited (e : JsError)
    (hrl : e.isRateLimit = false)
    (htm : jsIncludes e.message "timeout" = false)
    (hne : ¬ e.message = "") :
    catchGenerateCard e = .errJson 500 e.message e.message none := by
  unfold catchGenerateCard
  simp [hrl, htm, hne]

/-- An admitted request with a truthy description whose provider call throws
produces the catch block's response, restores the counter, and reports the
call count of `makeOpenAIRequest`. -/
theorem handle_admitted_error (active : Nat) (description : Option Json)
    (env : Env) (e : JsError) (n : Nat)
    (hadm : active < maxConcurrentRequests)
    (hdesc : jsTruthy description = true)
    (hreq : makeOpenAIRequest env description 0 = (.error e, n)) :
    handleGenerateCard active description env =
      { response := catchGenerateCard e
        activeDuring := active + 1
        activeAfter := active
        outboundCalls := n } := by
  have hadm' : ¬ active ≥ maxConcurrentRequests := by omega
  unfold handleGenerateCard
  simp [hadm', hdesc, hreq]

/-- A missing/falsy description throws before `makeOpenAIRequest` is called. -/
theorem handle_missing_description (active : Nat) (description : Option Json)
    (env : Env)
    (hadm : active < maxConcurrentRequests)
    (hdesc : jsTruthy description = false) :
    handleGenerateCard active description env =
      { response := catchGenerateCard .descriptionRequired
        activeDuring := active + 1
        activeAfter := active
        outboundCalls := 0 } := by
  have hadm' : ¬ active ≥ maxConcurrentRequests := by omega
  unfold handleGenerateCard
  simp [hadm', hdesc]

/-- `makeOpenAIRequest` on an unparseable 2xx message content. -/
theorem makeOpenAIRequest_unparseable (key : String) (status : Nat)
    (body : ProviderBody) (description : Option Json) (raw : String)
    (hkey : key ≠ "") (hst : 200 ≤ status ∧ status < 300)
    (hraw : body.content = some (.unparseable raw)) :
    makeOpenAIRequest ⟨some key, .reply status body⟩ description 0
      = (.error (.jsonParseFailure raw), 1) := by
  unfold makeOpenAIRequest
  simp [hasApiKey, hkey, hst, hraw]

/-- `makeOpenAIRequest` on a parsed 2xx content whose `type` tag is not
exactly "AdaptiveCard". -/
theorem makeOpenAIRequest_badTag (key : String) (status : Nat)
    (body : ProviderBody) (description : Option Json) (card : Json)
    (hkey : key ≠ "") (hst : 200 ≤ status ∧ status < 300)
    (hcard : body.content = some (.parsed card))
    (htag : typeTagIs (card.getField "type") "AdaptiveCard" = false) :
    makeOpenAIRequest ⟨some key, .reply status body⟩ description 0
      = (.error .invalidCardFormat, 1) := by
  unfold makeOpenAIRequest
  simp [hasApiKey, hkey, hst, hcard, htag]

/-- `makeOpenAIRequest` on a non-2xx reply. -/
theorem makeOpenAIRequest_non2xx (key : String) (status : Nat)
    (body : ProviderBody) (description : Option Json)
    (hkey : key ≠ "") (hst : ¬ (200 ≤ status ∧ status < 300)) :
    makeOpenAIRequest ⟨some key, .reply status body⟩ description 0
      = (.error (.apiRequestFailed status), 1) := by
  unfold makeOpenAIRequest
  simp [hasApiKey, hkey, hst]

/-- `makeOpenAIRequest` never issues more than one outbound call, whatever
the `retryCount` argument. -/
theorem makeOpenAIRequest_calls_le_one (env : Env) (description : Option Json)
    (retryCount : Nat) :
    (makeOpenAIRequest env description retryCount).2 ≤ 1 := by
  obtain ⟨apiKey, fo⟩ := env
  unfold makeOpenAIRequest
  dsimp only
  split
  · simp
  · split
    · simp
    · simp
    · split <;> simp
    · split
      · split
        · simp
        · simp
        · split <;> simp
      · simp

/-- Every handler response is the busy body, a card, or a catch-block body. -/
theorem response_shape (active : Nat) (description : Option Json) (env : Env) :
    (handleGenerateCard active description env).response = busyResponse
    ∨ (∃ card, (handleGenerateCard active description env).response
        = .okJson card)
    ∨ (∃ e : JsError, (handleGenerateCard active description env).response
        = catchGenerateCard e) := by
  unfold handleGenerateCard
  by_cases hadm : active ≥ maxConcurrentRequests
  · left; simp [hadm]
  · rw [if_neg hadm]
    cases hres : (if jsTruthy description = false then
        ((Except.error JsError.descriptionRequired : Except JsError Json), 0)
      else makeOpenAIRequest env description 0).1 with
    | ok card => right; left; exact ⟨card, by simp [hres]⟩
    | error e => right; right; exact ⟨e, by simp [hres]⟩

/-! ## Claims -/

/-- C1: while `activeRequests` is at or above `maxConcurrentRequests` (= 1),
the handler answers HTTP 429 "Server busy" immediately, issues no outbound
provider call, and neither increments nor otherwise changes the counter. -/
theorem busy_rejected_without_outbound (active : Nat)
    (description : Option Json) (env : Env)
    (h : active ≥ maxConcurrentRequests) :
    handleGenerateCard active description env =
      { response := busyResponse
        activeDuring := active
        activeAfter := active
        outboundCalls := 0 } := by
  unfold handleGenerateCard
  simp [h]

theorem busy_rejected_without_outbound_witness :
    1 ≥ maxConcurrentRequests ∧
      handleGenerateCard 1 (some (.str "a weather widget"))
          ⟨some "sk-test", .timeout⟩ =
        { response := busyResponse
          activeDuring := 1
          activeAfter := 1
          outboundCalls := 0 } :=
  ⟨by decide,
    busy_rejected_without_outbound 1 (some (.str "a weather widget"))
      ⟨some "sk-test", .timeout⟩ (by decide)⟩

/-- C2: the counter stays within `0 ≤ counter ≤ maxConcurrentRequests`
(during and after the handler), and every request — admitted or rejected,
on every exit path — leaves the counter at its pre-call value: the
`finally` decrement balances the single increment of an admitted request. -/
theorem counter_invariant_and_single_release (active : Nat)
    (description : Option Json) (env : Env)
    (h : active ≤ maxConcurrentRequests) :
    (handleGenerateCard active description env).activeAfter = active ∧
      (handleGenerateCard active description env).activeDuring
        ≤ maxConcurrentRequests ∧
      (handleGenerateCard active description env).activeAfter
        ≤ maxConcurrentRequests := by
  unfold handleGenerateCard
  by_cases hadm : active ≥ maxConcurrentRequests
  · simp [hadm, h]
  · have ha : active = 0 := by
      revert hadm; unfold maxConcurrentRequests; omega
    subst ha
    simp [maxConcurrentRequests]

theorem counter_invariant_and_single_release_witness :
    (0 : Nat) ≤ maxConcurrentRequests ∧
      ((handleGenerateCard 0 none ⟨some "sk-test", .timeout⟩).activeAfter = 0 ∧
        (handleGenerateCard 0 none ⟨some "sk-test", .timeout⟩).activeDuring
          ≤ maxConcurrentRequests ∧
        (handleGenerateCard 0 none ⟨some "sk-test", .timeout⟩).activeAfter
          ≤ maxConcurrentRequests) :=
  ⟨by decide,
    counter_invariant_and_single_release 0 none
      ⟨some "sk-test", .timeout⟩ (by decide)⟩

/-- C3: an admitted request with a truthy description, a configured key and
a 2xx provider reply whose message content parses to a JSON value whose
`type` field is exactly the string "AdaptiveCard" is answered by
`res.json(cardJson)`: HTTP 200 with the parsed object itself, deep-equal,
as the entire response body. -/
theorem success_returns_card_unwrapped (active : Nat)
    (description : Option Json) (key : String) (status : Nat)
    (body : ProviderBody) (card : Json)
    (hadm : active < maxConcurrentRequests)
    (hdesc : jsTruthy description = true)
    (hkey : key ≠ "")
    (hst : 200 ≤ status ∧ status < 300)
    (hcontent : body.content = some (.parsed card))
    (htag : typeTagIs (card.getField "type") "AdaptiveCard" = true) :
    (handleGenerateCard active description
        ⟨some key, .reply status body⟩).response = .okJson card := by
  have hadm' : ¬ active ≥ maxConcurrentRequests := by omega
  unfold handleGenerateCard
  simp [hadm', hdesc,
    makeOpenAIRequest_success key status body card description 0 hkey hst
      hcontent htag]

theorem success_returns_card_unwrapped_witness :
    (0 : Nat) < maxConcurrentRequests ∧
      (handleGenerateCard 0 (some (.str "a weather widget"))
          ⟨some "sk-test",
            .reply 200
              ⟨some (.parsed (.obj [("type", .str "AdaptiveCard"),
                  ("body", .arr [])])), none, none⟩⟩).response
        = .okJson (.obj [("type", .str "AdaptiveCard"), ("body", .arr [])]) :=
  ⟨by decide,
    success_returns_card_unwrapped 0 (some (.str "a weather widget"))
      "sk-test" 200
      ⟨some (.parsed (.obj [("type", .str "AdaptiveCard"),
          ("body", .arr [])])), none, none⟩
      (.obj [("type", .str "AdaptiveCard"), ("body", .arr [])])
      (by decide) (by decide) (by decide) (by omega) rfl (by rfl)⟩

/-- C4: when a 2xx provider message content is not valid JSON, or parses to
a value whose `type` field is absent or not strictly equal to the string
"AdaptiveCard", the handler returns an error body with HTTP 500 and never a
card artifact. -/
theorem malformed_output_maps_500 (active : Nat) (description : Option Json)
    (key : String) (status : Nat) (body : ProviderBody)
    (hadm : active < maxConcurrentRequests)
    (hdesc : jsTruthy description = true)
    (hkey : key ≠ "")
    (hst : 200 ≤ status ∧ status < 300)
    (hbad : (∃ raw, body.content = some (.unparseable raw)) ∨
        (∃ card, body.content = some (.parsed card) ∧
          typeTagIs (card.getField "type") "AdaptiveCard" = false)) :
    ∃ msg, (handleGenerateCard active description
          ⟨some key, .reply status body⟩).response = .errJson 500 msg msg none
      ∧ ∀ card, (handleGenerateCard active description
          ⟨some key, .reply status body⟩).response ≠ .okJson card := by
  have hcore : ∀ e : JsError, e.isRateLimit = false →
      jsIncludes e.message "timeout" = false → ¬ e.message = "" →
      makeOpenAIRequest ⟨some key, .reply status body⟩ description 0
        = (.error e, 1) →
      (handleGenerateCard active description
          ⟨some key, .reply status body⟩).response
        = .errJson 500 e.message e.message none := by
    intro e h1 h2 h3 h4
    rw [handle_admitted_error active description _ e 1 hadm hdesc h4]
    exact catch_not_rate_limited e h1 h2 h3
  rcases hbad with ⟨raw, hraw⟩ | ⟨card, hcard, htag⟩
  · have hresp := hcore (.jsonParseFailure raw) rfl
      (v8ParseErrMessage_no_timeout raw) (v8ParseErrMessage_ne_empty raw)
      (makeOpenAIRequest_unparseable key status body description raw hkey hst
        hraw)
    refine ⟨_, hresp, ?_⟩
    intro c hc
    rw [hresp] at hc
    exact absurd hc (by simp)
  · have hresp := hcore .invalidCardFormat rfl (by decide) (by decide)
      (makeOpenAIRequest_badTag key status body description card hkey hst
        hcard htag)
    refine ⟨_, hresp, ?_⟩
    intro c hc
    rw [hresp] at hc
    exact absurd hc (by simp)

theorem malformed_output_maps_500_witness :
    ((0 : Nat) < maxConcurrentRequests ∧
      jsTruthy (some (.str "a weather widget")) = true ∧
      "sk-test" ≠ "" ∧ ((200 ≤ 200 ∧ 200 < 300) : Prop)) ∧
    ∃ msg,
      (handleGenerateCard 0 (some (.str "a weather widget"))
          ⟨some "sk-test",
            .reply 200 ⟨some (.unparseable "Here is your card: \x7b..."),
              none, none⟩⟩).response = .errJson 500 msg msg none
      ∧ ∀ card, (handleGenerateCard 0 (some (.str "a weather widget"))
          ⟨some "sk-test",
            .reply 200 ⟨some (.unparseable "Here is your card: \x7b..."),
              none, none⟩⟩).response ≠ .okJson card :=
  ⟨⟨by decide, by decide, by decide, by omega⟩,
    malformed_output_maps_500 0 (some (.str "a weather widget")) "sk-test"
      200 ⟨some (.unparseable "Here is your card: \x7b..."), none, none⟩
      (by decide) (by decide) (by decide) (by omega)
      (Or.inl ⟨"Here is your card: \x7b...", rfl⟩)⟩

/-- C5 counterexample: a non-2xx provider reply whose error body signals
quota exhaustion (`error.type = "resource_exhausted"`, message mentioning a
rate limit) but whose HTTP status is 403 is NOT classified as a rate limit:
the handler answers 500 without any `retryAfter`, refuting the claim's
"or with an error body whose type/message indicates quota or rate
exhaustion" clause. -/
theorem quota_body_not_rate_limited :
    (handleGenerateCard 0 (some (.str "a weather widget"))
        ⟨some "sk-test",
          .reply 403 ⟨none, some "resource_exhausted",
            some "You exceeded your current quota: rate limit reached"⟩⟩).response
      = .errJson 500 "OpenAI API request failed" "OpenAI API request failed"
          none := by
  rfl

/-- C5 (amended): classification depends only on the provider's HTTP status.
A 429 reply is tagged rate-limit with `retryAfter = 3600` and mapped to
outward HTTP 429 carrying that `retryAfter`; every other non-2xx reply —
whatever quota/rate wording its error body carries — is mapped to
outward HTTP 500. -/
theorem rate_limit_only_on_status_429 (active : Nat)
    (description : Option Json) (key : String) (status : Nat)
    (body : ProviderBody)
    (hadm : active < maxConcurrentRequests)
    (hdesc : jsTruthy description = true)
    (hkey : key ≠ "")
    (hnotok : ¬ (200 ≤ status ∧ status < 300)) :
    (handleGenerateCard active description
        ⟨some key, .reply status body⟩).response
      = if status = 429 then
          .errJson 429 "Rate limit exceeded"
            "The AI service is currently at capacity. Please try again in about an hour."
            (some 3600)
        else
          .errJson 500 "OpenAI API request failed" "OpenAI API request failed"
            none := by
  rw [handle_admitted_error active description _ _ 1 hadm hdesc
      (makeOpenAIRequest_non2xx key status body description hkey hnotok)]
  by_cases h429 : status = 429
  · subst h429
    rw [if_pos rfl]
    rfl
  · rw [if_neg h429]
    have hrl : (JsError.apiRequestFailed status).isRateLimit = false := by
      simp [JsError.isRateLimit, h429]
    exact catch_not_rate_limited _ hrl
      (by decide : jsIncludes "OpenAI API request failed" "timeout" = false)
      (by decide : ¬ "OpenAI API request failed" = "")

theorem rate_limit_only_on_status_429_witness :
    ((0 : Nat) < maxConcurrentRequests ∧
      ¬ ((200 ≤ 429 ∧ 429 < 300) : Prop)) ∧
    (handleGenerateCard 0 (some (.str "a weather widget"))
        ⟨some "sk-test", .reply 429 ⟨none, none, none⟩⟩).response
      = if (429 : Nat) = 429 then
          .errJson 429 "Rate limit exceeded"
            "The AI service is currently at capacity. Please try again in about an hour."
            (some 3600)
        else
          .errJson 500 "OpenAI API request failed" "OpenAI API request failed"
            none :=
  ⟨⟨by decide, by omega⟩,
    rate_limit_only_on_status_429 0 (some (.str "a weather widget"))
      "sk-test" 429 ⟨none, none, none⟩ (by decide) (by decide) (by decide)
      (by omega)⟩

/-- C6: at the failing input — an admitted request with a configured key
whose provider call hits the 30000 ms deadline and is aborted — the code
makes exactly one outbound attempt (no retry) and answers HTTP 500, not 504:
the thrown message "Request timed out" does not contain the substring
"timeout", so the handler's timeout-specific 504 branch can never fire for
the code's own timeout error. -/
theorem timeout_single_attempt_maps_500 :
    handleGenerateCard 0 (some (.str "a weather widget"))
        ⟨some "sk-test", .timeout⟩ =
      { response := .errJson 500 "Request timed out" "Request timed out" none
        activeDuring := 1
        activeAfter := 0
        outboundCalls := 1 }
    ∧ jsIncludes (JsError.requestTimedOut).message "timeout" = false :=
  ⟨rfl, by decide⟩

/-- C7 counterexample: a request with an absent description (counter 0, key
configured, provider ready to answer successfully) is answered with
HTTP 500 — not 400 — carrying "Description is required", though indeed with
zero outbound calls. -/
theorem missing_description_gets_500 :
    handleGenerateCard 0 none
        ⟨some "sk-test",
          .reply 200 ⟨some (.parsed (.obj [("type", .str "AdaptiveCard")])),
            none, none⟩⟩ =
      { response := .errJson 500 "Description is required"
          "Description is required" none
        activeDuring := 1
        activeAfter := 0
        outboundCalls := 0 } := by
  rfl

/-- C7 (amended): an empty or absent description never reaches the
completion client — zero outbound provider calls — and the handler answers
with the error "Description is required", but through the generic error
path with HTTP 500, not 400. -/
theorem missing_description_no_outbound (active : Nat)
    (description : Option Json) (env : Env)
    (hadm : active < maxConcurrentRequests)
    (hdesc : jsTruthy description = false) :
    handleGenerateCard active description env =
      { response := .errJson 500 "Description is required"
          "Description is required" none
        activeDuring := active + 1
        activeAfter := active
        outboundCalls := 0 } := by
  rw [handle_missing_description active description env hadm hdesc]
  rfl

theorem missing_description_no_outbound_witness :
    ((0 : Nat) < maxConcurrentRequests ∧ jsTruthy none = false) ∧
    handleGenerateCard 0 none ⟨some "sk-test", .timeout⟩ =
      { response := .errJson 500 "Description is required"
          "Description is required" none
        activeDuring := 1
        activeAfter := 0
        outboundCalls := 0 } :=
  ⟨⟨by decide, by decide⟩,
    missing_description_no_outbound 0 none ⟨some "sk-test", .timeout⟩
      (by decide) (by decide)⟩

/-- C8: when the provider credential is absent (or the empty string), an
admitted request with a truthy description fails with the configuration
error before any outbound network call (zero fetch calls, hence nothing to
retry) and is mapped to HTTP 500 with the fixed message
"OpenAI API key is not configured". -/
theorem missing_key_config_error_no_outbound (active : Nat)
    (description : Option Json) (key : Option String) (fo : FetchOutcome)
    (hadm : active < maxConcurrentRequests)
    (hdesc : jsTruthy description = true)
    (hkey : hasApiKey key = false) :
    handleGenerateCard active description ⟨key, fo⟩ =
      { response := .errJson 500 "OpenAI API key is not configured"
          "OpenAI API key is not configured" none
        activeDuring := active + 1
        activeAfter := active
        outboundCalls := 0 } := by
  rw [handle_admitted_error active description ⟨key, fo⟩ .configError 0 hadm
      hdesc (by unfold makeOpenAIRequest; simp [hkey])]
  rfl

theorem missing_key_config_error_no_outbound_witness :
    ((0 : Nat) < maxConcurrentRequests ∧
      jsTruthy (some (.str "a weather widget")) = true ∧
      hasApiKey none = false) ∧
    handleGenerateCard 0 (some (.str "a weather widget")) ⟨none, .timeout⟩ =
      { response := .errJson 500 "OpenAI API key is not configured"
          "OpenAI API key is not configured" none
        activeDuring := 1
        activeAfter := 0
        outboundCalls := 0 } :=
  ⟨⟨by decide, by decide, by decide⟩,
    missing_key_config_error_no_outbound 0 (some (.str "a weather widget"))
      none .timeout (by decide) (by decide) (by decide)⟩

/-- The catch block of the `POST /generate-card` handler in the
`src/unnamed/part_000` variant (lines 101-116): on a non-rate-limit error
the body sent is `\x7berror: error.message || default, details: error.stack\x7d`
— the `details` field carries the runtime stack trace attached to the thrown
error (`stack` below models that runtime-generated string). -/
def p0CatchGenerateCard (message : String) (isRateLimit : Bool)
    (retryAfter : Option Nat) (stack : String) : RespSent :=
  if isRateLimit then
    .errJson 429 "Rate limit exceeded"
      "The AI service is currently at capacity. Please try again in about an hour."
      (some (retryAfter.getD 3600))
  else
    .errJson 500
      (if message = "" then "An error occurred while generating the card"
       else message)
      stack none

/-- The catch block of the `server.js` handler (lines 95-115), written over
the fields of the caught `Error` object as the code sees them:
`error.message`, `error.isRateLimit`, `error.retryAfter`, and `error.stack`.
The stack is in scope but — unlike in the part_000 variant — never read. -/
def srvCatchErrorBody (message : String) (isRateLimit : Bool)
    (retryAfter : Option Nat) (stack : String) : RespSent :=
  if isRateLimit then
    .errJson 429 "Rate limit exceeded"
      "The AI service is currently at capacity. Please try again in about an hour."
      (some (retryAfter.getD 3600))
  else
    .errJson (if jsIncludes message "timeout" then 504 else 500)
      (if jsIncludes message "timeout" then
        "Request timed out. Please try again."
      else if message = "" then
        "An error occurred while generating the card. Please try again."
      else message)
      message none

/-- `srvCatchErrorBody` applied to the fields of a thrown error is exactly
the handler's catch block, for every stack string. -/
theorem srvCatch_eq_catch (e : JsError) (stack : String) :
    srvCatchErrorBody e.message e.isRateLimit e.retryAfter stack
      = catchGenerateCard e := by
  rfl

/-- The catch block's `details` is either the fixed rate-limit sentence or
the error's message. -/
theorem catch_details_stable (e : JsError) :
    (catchGenerateCard e).detailsField = some
      "The AI service is currently at capacity. Please try again in about an hour."
    ∨ (catchGenerateCard e).detailsField = some e.message := by
  unfold catchGenerateCard
  by_cases h : e.isRateLimit = true
  · left
    simp [h, RespSent.detailsField]
  · right
    simp [h, RespSent.detailsField]

/-- C9 counterexample: in the part_000 variant of the handler, a
missing-description error whose runtime stack trace is the given string is
answered with an error body whose `details` field is exactly that stack
trace — internal diagnostic detail exposed verbatim to the external
caller. -/
theorem part000_details_is_stack_trace :
    (p0CatchGenerateCard "Description is required" false none
        "Error: Description is required\n    at /app/server.js:94:19").detailsField
      = some "Error: Description is required\n    at /app/server.js:94:19" := by
  rfl

/-- C9 (amended): the `server.js` handler's error bodies expose exactly the
caught error's message and never its stack trace: the catch block sends the
same body for every runtime stack string and its `details` field is the
error's message verbatim — unlike the part_000 variant, which sends
`error.stack` — and every `details` field the handler emits is one of the
two fixed busy/rate-limit sentences or the thrown error's message.  No
stronger guarantee holds: for `JSON.parse` and fetch failures that message
is input-dependent runtime diagnostic text, so the original "short
machine-stable message, never raw provider detail" reading is not true of
the code. -/
theorem error_details_never_stack (active : Nat) (description : Option Json)
    (env : Env) (message stack stack' : String) (isRateLimit : Bool)
    (retryAfter : Option Nat)
    (hrl : isRateLimit = false) :
    srvCatchErrorBody message isRateLimit retryAfter stack
      = srvCatchErrorBody message isRateLimit retryAfter stack'
    ∧ (srvCatchErrorBody message isRateLimit retryAfter stack).detailsField
      = some message
    ∧ ∀ d, (handleGenerateCard active description env).response.detailsField
        = some d →
      d = "Too many concurrent requests. Please try again in a few seconds."
      ∨ d = "The AI service is currently at capacity. Please try again in about an hour."
      ∨ ∃ e : JsError, (handleGenerateCard active description env).response
          = catchGenerateCard e ∧ d = e.message := by
  subst hrl
  refine ⟨rfl, rfl, ?_⟩
  intro d h
  rcases response_shape active description env with hb | ⟨card, hc⟩ | ⟨e, he⟩
  · rw [hb] at h
    simp [busyResponse, RespSent.detailsField] at h
    left
    exact h.symm
  · rw [hc] at h
    simp [RespSent.detailsField] at h
  · rcases catch_details_stable e with h1 | h1
    · rw [he, h1] at h
      simp at h
      right; left
      exact h.symm
    · rw [he, h1] at h
      simp at h
      right; right
      exact ⟨e, he, h.symm⟩

theorem error_details_never_stack_witness :
    (false = false) ∧
      (srvCatchErrorBody "Description is required" false none
          "Error: Description is required\n    at /app/server.js:94:19"
        = srvCatchErrorBody "Description is required" false none
          "Error: Description is required\n    at /app/server.js:10:1")
      ∧ (srvCatchErrorBody "Description is required" false none
          "Error: Description is required\n    at /app/server.js:94:19").detailsField
        = some "Description is required"
      ∧ ("Too many concurrent requests. Please try again in a few seconds."
            = "Too many concurrent requests. Please try again in a few seconds."
          ∨ "Too many concurrent requests. Please try again in a few seconds."
            = "The AI service is currently at capacity. Please try again in about an hour."
          ∨ ∃ e : JsError,
              (handleGenerateCard 1 none ⟨some "sk-test", .timeout⟩).response
                = catchGenerateCard e
              ∧ "Too many concurrent requests. Please try again in a few seconds."
                = e.message) :=
  have h := error_details_never_stack 1 none ⟨some "sk-test", .timeout⟩
    "Description is required"
    "Error: Description is required\n    at /app/server.js:94:19"
    "Error: Description is required\n    at /app/server.js:10:1" false none rfl
  ⟨rfl, h.1, h.2.1, h.2.2 _ rfl⟩

/-- C10: every `POST /generate-card` request issues at most one outbound
provider call, and `makeOpenAIRequest` performs at most one attempt whatever
the value of its `retryCount` parameter: no failure triggers a retry, even
though the constants `MAX_RETRIES = 3` and `RETRY_DELAY = 2000` are declared
— the code realizes the no-retry policy. -/
theorem at_most_one_outbound_call (active : Nat) (description : Option Json)
    (env : Env) :
    (handleGenerateCard active description env).outboundCalls ≤ 1
    ∧ (∀ retryCount : Nat,
        (makeOpenAIRequest env description retryCount).2 ≤ 1)
    ∧ MAX_RETRIES = 3 ∧ RETRY_DELAY = 2000 := by
  refine ⟨?_, fun retryCount => makeOpenAIRequest_calls_le_one env
    description retryCount, rfl, rfl⟩
  unfold handleGenerateCard
  by_cases hadm : active ≥ maxConcurrentRequests
  · simp [hadm]
  · rw [if_neg hadm]
    by_cases hd : jsTruthy description = false
    · simp [hd]
    · simp [hd]
      exact makeOpenAIRequest_calls_le_one env description 0

end MicroAppGen
